import Mathlib

/-!
Shallow embedding of the Women's Safety Alert backend
(src/main.py and src/schemas.py).

The document-store adapter (database.py: db, create_document, get_documents)
is not among the given source files; its semantics are modelled from the
spec's store contract (section 4.1): create(collection, record) returns a
newly generated identifier, find(collection, filter) returns all records
whose fields equal the filter's key/value constraints, in insertion order
(no ordering guarantee is relied on below beyond what handlers preserve).
The store is modelled as always available: the 500 StoreUnavailable path
is out of scope of the claims.

Freshly generated identifiers are passed to handlers as explicit arguments
(with freshness/format hypotheses where a claim needs them) rather than
modelling the 12-byte ObjectId generator.
-/

namespace SafetyAlert

/-- Fixed fallback SOS message: the schema default of User.default_message
in src/schemas.py and the literal fallback in create_alert (src/main.py). -/
def fallbackMessage : String :=
  "I need help. This is an emergency. Please check my location and contact me immediately."

/-- A hexadecimal digit character. -/
def isHexChar (c : Char) : Bool :=
  c.isDigit || (('a' ≤ c && c ≤ 'f') || ('A' ≤ c && c ≤ 'F'))

/-- Syntactic validity of a bson ObjectId in string form: exactly 24 hex
characters. main.py's ensure_objectid (ObjectId(id_str) inside try/except)
succeeds on a string input exactly under this condition, else raises the
400 "Invalid ID format" error. -/
def isValidObjectId (s : String) : Bool :=
  s.length == 24 && s.toList.all isHexChar

/-- Python truthiness of an optional string value: None and the empty
string are falsy, every other string is truthy. -/
def strTruthy : Option String → Bool
  | none => false
  | some s => !(s == "")

/-- Python's `x or y` on an optional string x: yields y when x is None or
empty, else the string in x. Used for `payload.message or user.get(...)`
in create_alert. -/
def pyOrStr (x : Option String) (y : String) : String :=
  match x with
  | some s => if s == "" then y else s
  | none => y

/-! Validated schema models (src/schemas.py, post-pydantic-validation values). -/

/-- Location schema (schemas.py). Coordinates are modelled as rationals;
no claim under consideration computes with coordinate values, only carries
them. -/
structure Location where
  lat : Rat
  lng : Rat
  accuracy : Option Rat
deriving DecidableEq, Repr

/-- User schema (schemas.py): name and phone required, email optional,
default_message a string with default fallbackMessage, pin an optional
string with no format constraint declared. -/
structure User where
  name : String
  phone : String
  email : Option String
  default_message : String
  pin : Option String
deriving DecidableEq, Repr

/-- Contact schema (schemas.py): user_id and name required, phone and
email optional. -/
structure Contact where
  user_id : String
  name : String
  phone : Option String
  email : Option String
deriving DecidableEq, Repr

/-! Raw (pre-validation) registration payloads and the pydantic
validation step for the /api/register body. A missing field is None. -/

/-- Raw inbound contact object: any subset of fields may be present. -/
structure RawContact where
  user_id : Option String
  name : Option String
  phone : Option String
  email : Option String
deriving DecidableEq, Repr

/-- Raw inbound register body: User fields plus optional contacts list
(main.py RegisterUserRequest extends User). -/
structure RawRegisterRequest where
  name : Option String
  phone : Option String
  email : Option String
  default_message : Option String
  pin : Option String
  contacts : Option (List RawContact)
deriving DecidableEq, Repr

/-- Pydantic validation failure (surfaced by FastAPI as a 422 client
error before any handler code runs). -/
inductive ValErr
  | missingField
  | badEmail
deriving DecidableEq, Repr

/-- Abstraction of pydantic's EmailStr check on an optional email field:
absent is accepted; a present value must look like an email. The precise
EmailStr grammar is a pydantic library detail; no claim below depends on
it, and every concrete input used by the theorems has email absent. -/
def emailOk : Option String → Bool
  | none => true
  | some e => e.toList.contains '@'

/-- Validated register request: the User fields plus the optional
validated contacts list (main.py RegisterUserRequest). -/
structure RegisterUserRequest extends User where
  contacts : Option (List Contact)
deriving DecidableEq, Repr

/-- Pydantic validation of one inbound contact against the Contact schema:
user_id and name are required (Field(...)), phone optional, email optional
EmailStr. -/
def validateContact (r : RawContact) : Except ValErr Contact :=
  match r.user_id with
  | none => .error .missingField
  | some uid =>
    match r.name with
    | none => .error .missingField
    | some nm =>
      if emailOk r.email then
        .ok { user_id := uid, name := nm, phone := r.phone, email := r.email }
      else .error .badEmail

/-- Validate each element of an inbound contacts list; the first failure
rejects the whole payload. -/
def validateContacts : List RawContact → Except ValErr (List Contact)
  | [] => .ok []
  | r :: rs =>
    match validateContact r with
    | .error e => .error e
    | .ok c =>
      match validateContacts rs with
      | .error e => .error e
      | .ok cs => .ok (c :: cs)

/-- Pydantic validation of the /api/register body (RegisterUserRequest):
name and phone required, email optional EmailStr, default_message defaults
to fallbackMessage, pin passed through with no constraint, contacts each
validated against the Contact schema. -/
def validateRegisterRequest (r : RawRegisterRequest) : Except ValErr RegisterUserRequest :=
  match r.name with
  | none => .error .missingField
  | some nm =>
    match r.phone with
    | none => .error .missingField
    | some ph =>
      if emailOk r.email then
        match r.contacts with
        | none =>
          .ok { name := nm, phone := ph, email := r.email,
                default_message := r.default_message.getD fallbackMessage,
                pin := r.pin, contacts := none }
        | some rcs =>
          match validateContacts rcs with
          | .error e => .error e
          | .ok cs =>
            .ok { name := nm, phone := ph, email := r.email,
                  default_message := r.default_message.getD fallbackMessage,
                  pin := r.pin, contacts := some cs }
      else .error .badEmail

/-- The 4-6 digit PIN format named by the spec's data model table. -/
def pinFormat (s : String) : Bool :=
  (4 ≤ s.length && s.length ≤ 6) && s.toList.all Char.isDigit

/-! Request bodies of the alert endpoints (main.py). -/

/-- Body of POST /api/alerts. -/
structure CreateAlertRequest where
  user_id : String
  message : Option String
  location : Option Location
deriving DecidableEq, Repr

/-- Body of POST /api/alerts/cancel. -/
structure CancelAlertRequest where
  alert_id : String
  pin : Option String
deriving DecidableEq, Repr

/-! Stored documents and the store state. Documents carry the fields the
handlers write and read; _id is the string form of the stored identifier. -/

/-- A stored user document. default_message and pin are optional because a
stored document may lack either key (create_alert reads them with
dict.get); registration always writes default_message. The registration
payload's contacts list is also serialized into the user document by
create_document("user", payload) but no handler ever reads it back, so it
is not carried here. -/
structure UserDoc where
  id : String
  name : String
  phone : String
  email : Option String
  default_message : Option String
  pin : Option String
deriving DecidableEq, Repr

/-- A stored contact document. -/
structure ContactDoc where
  id : String
  user_id : String
  name : String
  phone : Option String
  email : Option String
deriving DecidableEq, Repr

/-- A stored alert document. -/
structure AlertDoc where
  id : String
  user_id : String
  message : String
  location : Option Location
  status : String
  share_url : Option String
deriving DecidableEq, Repr

/-- The document store state: one list per collection, in insertion
order. Modelled from the spec: the store adapter (database.py) exposes
create/find; find returns the documents matching the filter's equality
constraints. -/
structure Store where
  users : List UserDoc
  contacts : List ContactDoc
  alerts : List AlertDoc
deriving DecidableEq, Repr

/-- Handler-level errors raised via HTTPException in main.py. -/
inductive HErr
  | invalidId
  | userNotFound
  | alertNotFound
  | forbidden
deriving DecidableEq, Repr

/-- The HTTP status code each handler error is raised with. -/
def HErr.statusCode : HErr → Nat
  | .invalidId => 400
  | .userNotFound => 404
  | .alertNotFound => 404
  | .forbidden => 403

/-- One operation issued against the store by a handler, recorded in
issue order; create_document and update_one are writes, get_documents is
a read. -/
inductive StoreOp
  | read (coll : String)
  | write (coll : String)
deriving DecidableEq, Repr

/-- Whether a store operation writes. -/
def StoreOp.isWrite : StoreOp → Bool
  | .read _ => false
  | .write _ => true

/-! Handlers (src/main.py), as functions of the store state. Each returns
its response (or error), the resulting store, and the list of store
operations it issued, in order. -/

/-- Response of POST /api/register. -/
structure RegisterResponse where
  user_id : String
deriving DecidableEq, Repr

/-- Response of POST /api/alerts and POST /api/alerts/cancel. -/
structure AlertStatusResponse where
  alert_id : String
  status : String
deriving DecidableEq, Repr

/-- The user document persisted by register_user: the payload's User
fields under the newly generated identifier. -/
def userDocOfRequest (uid : String) (p : RegisterUserRequest) : UserDoc :=
  { id := uid, name := p.name, phone := p.phone, email := p.email,
    default_message := some p.default_message, pin := p.pin }

/-- The contact documents persisted by register_user: each submitted
contact's fields with the new user's identifier merged in as user_id
(overriding the submitted user_id), paired with its generated _id. -/
def contactDocsOf (uid : String) (pairs : List (Contact × String)) : List ContactDoc :=
  pairs.map fun pr =>
    { id := pr.2, user_id := uid, name := pr.1.name,
      phone := pr.1.phone, email := pr.1.email }

/-- POST /api/register (main.py register_user): persist the user, then
persist each submitted contact with the new user_id injected. Python's
`if payload.contacts:` treats None and the empty list alike (no contact
inserts), which getD [] reproduces. newUserId and contactIds stand for
the identifiers the store generates for the inserted documents. -/
def register_user (st : Store) (newUserId : String) (contactIds : List String)
    (p : RegisterUserRequest) : RegisterResponse × Store × List StoreOp :=
  let newContacts := contactDocsOf newUserId ((p.contacts.getD []).zip contactIds)
  ( { user_id := newUserId },
    { st with users := st.users ++ [userDocOfRequest newUserId p],
              contacts := st.contacts ++ newContacts },
    .write "user" :: newContacts.map (fun _ => .write "contact") )

/-- GET /api/contacts/{user_id} (main.py list_contacts): validate the
identifier format only, then return every contact document whose stored
user_id equals the given string (with _id coerced to string form, which
the embedding's id field already is). Reads leave the store unchanged, so
the store is not returned. -/
def list_contacts (st : Store) (user_id : String) :
    Except HErr (List ContactDoc) × List StoreOp :=
  if isValidObjectId user_id then
    (.ok (st.contacts.filter fun c => c.user_id == user_id), [.read "contact"])
  else
    (.error .invalidId, [])

/-- GET /api/alerts/{user_id} (main.py list_alerts): identifier format
check, then all alert documents with matching stored user_id. -/
def list_alerts (st : Store) (user_id : String) :
    Except HErr (List AlertDoc) × List StoreOp :=
  if isValidObjectId user_id then
    (.ok (st.alerts.filter fun a => a.user_id == user_id), [.read "alert"])
  else
    (.error .invalidId, [])

/-- POST /api/alerts (main.py create_alert): validate the user identifier
format, load the user (404 if none matches), resolve the message via
`payload.message or user.get("default_message", fallback)`, then persist
a new alert with status "active" and share_url unset. newAlertId stands
for the identifier the store generates. -/
def create_alert (st : Store) (newAlertId : String) (p : CreateAlertRequest) :
    Except HErr AlertStatusResponse × Store × List StoreOp :=
  if isValidObjectId p.user_id then
    match (st.users.filter fun u => u.id == p.user_id).head? with
    | none => (.error .userNotFound, st, [.read "user"])
    | some user =>
      let message := pyOrStr p.message (user.default_message.getD fallbackMessage)
      let alertDoc : AlertDoc :=
        { id := newAlertId, user_id := p.user_id, message := message,
          location := p.location, status := "active", share_url := none }
      (.ok { alert_id := newAlertId, status := "active" },
       { st with alerts := st.alerts ++ [alertDoc] },
       [.read "user", .write "alert"])
  else (.error .invalidId, st, [])

/-- The PIN authorization check of main.py cancel_alert:
`if user and user.get("pin"): if not payload.pin or payload.pin != user.get("pin"): 403`.
True exactly when the request must be rejected with Forbidden. -/
def pinCheckFails (user : Option UserDoc) (pin : Option String) : Bool :=
  match user with
  | none => false
  | some u =>
    match u.pin with
    | none => false
    | some upin =>
      if upin == "" then false
      else
        match pin with
        | none => true
        | some ppin => ppin == "" || ppin != upin

/-- pymongo update_one with a $set on status: rewrite the status of the
first document matching the _id filter to "canceled", leaving every other
document and every other field untouched. -/
def setCanceledFirst : List AlertDoc → String → List AlertDoc
  | [], _ => []
  | a :: rest, aid =>
    if a.id == aid then { a with status := "canceled" } :: rest
    else a :: setCanceledFirst rest aid

/-- POST /api/alerts/cancel (main.py cancel_alert): validate the alert
identifier format, load the alert (404 if none matches), re-validate the
alert's stored user_id through ensure_objectid, load the owning user
(None if no match), run the PIN check, then update_one the alert's status
to "canceled". The db-unavailable 500 path is not modelled (store assumed
available). -/
def cancel_alert (st : Store) (p : CancelAlertRequest) :
    Except HErr AlertStatusResponse × Store × List StoreOp :=
  if isValidObjectId p.alert_id then
    match (st.alerts.filter fun a => a.id == p.alert_id).head? with
    | none => (.error .alertNotFound, st, [.read "alert"])
    | some alert =>
      if isValidObjectId alert.user_id then
        let users := st.users.filter fun u => u.id == alert.user_id
        if pinCheckFails users.head? p.pin then
          (.error .forbidden, st, [.read "alert", .read "user"])
        else
          (.ok { alert_id := p.alert_id, status := "canceled" },
           { st with alerts := setCanceledFirst st.alerts p.alert_id },
           [.read "alert", .read "user", .write "alert"])
      else (.error .invalidId, st, [.read "alert"])
  else (.error .invalidId, st, [])

/-! Concrete fixtures used by the witness theorems. Identifiers are
24-hex-character strings, i.e. syntactically valid ObjectIds. -/

/-- A well-formed user identifier. -/
def wUid : String := "0123456789abcdef01234567"

/-- A well-formed alert identifier. -/
def wAid : String := "aaaaaaaaaaaaaaaaaaaaaaaa"

/-- A well-formed fresh alert identifier. -/
def wAid2 : String := "bbbbbbbbbbbbbbbbbbbbbbbb"

/-- A well-formed contact identifier. -/
def wCid1 : String := "cccccccccccccccccccccccc"

/-- Another well-formed contact identifier. -/
def wCid2 : String := "dddddddddddddddddddddddd"

/-- A stored user protected by PIN "1234". -/
def wUserPin : UserDoc :=
  { id := wUid, name := "A", phone := "555", email := none,
    default_message := some "check on me", pin := some "1234" }

/-- The same stored user with no PIN configured. -/
def wUserNoPin : UserDoc := { wUserPin with pin := none }

/-- A stored user document lacking the default_message key. -/
def wUserNoDm : UserDoc :=
  { id := wUid, name := "A", phone := "555", email := none,
    default_message := none, pin := none }

/-- A stored active alert owned by wUid. -/
def wAlert : AlertDoc :=
  { id := wAid, user_id := wUid, message := "m", location := none,
    status := "active", share_url := none }

/-- The same alert in status "resolved". -/
def wAlertResolved : AlertDoc := { wAlert with status := "resolved" }

/-- Store: PIN-protected user owning one active alert. -/
def wStore : Store := { users := [wUserPin], contacts := [], alerts := [wAlert] }

/-- Store: PIN-less user owning one active alert. -/
def wStoreNoPin : Store := { users := [wUserNoPin], contacts := [], alerts := [wAlert] }

/-- Store: one alert whose stored user_id matches no user document. -/
def wStoreOrphan : Store := { users := [], contacts := [], alerts := [wAlert] }

/-- Store: PIN-less user owning one alert already in status "resolved". -/
def wStoreResolved : Store :=
  { users := [wUserNoPin], contacts := [], alerts := [wAlertResolved] }

/-- Store: one user document with no default_message key and no alerts. -/
def wStoreNoDm : Store := { users := [wUserNoDm], contacts := [], alerts := [] }

/-- The empty store. -/
def wStoreEmpty : Store := { users := [], contacts := [], alerts := [] }

/-- A submitted contact carrying a user_id value that registration will
override. -/
def wContact1 : Contact :=
  { user_id := "ignored", name := "B", phone := some "111", email := none }

/-- A second submitted contact. -/
def wContact2 : Contact :=
  { user_id := "x", name := "C", phone := none, email := none }

/-- A validated register request with two contacts. -/
def wRegisterReq : RegisterUserRequest :=
  { name := "A", phone := "555", email := none, default_message := fallbackMessage,
    pin := none, contacts := some [wContact1, wContact2] }

/-- A raw register body whose single contact entry lacks a user_id field. -/
def c8Payload : RawRegisterRequest :=
  { name := some "A", phone := some "555", email := none, default_message := none,
    pin := none,
    contacts := some [{ user_id := none, name := some "B", phone := none, email := none }] }

/-- A raw register body whose pin is a non-digit 3-character string. -/
def c9Payload : RawRegisterRequest :=
  { name := some "A", phone := some "555", email := none, default_message := none,
    pin := some "abc", contacts := none }

/-- The validated request that c9Payload elaborates to. -/
def c9Accepted : RegisterUserRequest :=
  { name := "A", phone := "555", email := none, default_message := fallbackMessage,
    pin := some "abc", contacts := none }

/-! Theorems. -/

/-- C7: for every malformed identifier string, the contact-listing,
alert-listing, alert-creation and alert-cancellation handlers fail with
the 400 InvalidIdentifier error, issue no store operation at all (empty
operation list, so in particular no read or write), and leave the store
unchanged. -/
theorem malformed_id_rejected_before_store
    (st : Store) (idStr newId : String) (msg : Option String)
    (loc : Option Location) (pin : Option String)
    (h : isValidObjectId idStr = false) :
    list_contacts st idStr = (.error .invalidId, []) ∧
    list_alerts st idStr = (.error .invalidId, []) ∧
    create_alert st newId { user_id := idStr, message := msg, location := loc }
      = (.error .invalidId, st, []) ∧
    cancel_alert st { alert_id := idStr, pin := pin } = (.error .invalidId, st, []) ∧
    HErr.statusCode .invalidId = 400 := by
  refine ⟨?_, ?_, ?_, ?_, rfl⟩ <;>
    simp [list_contacts, list_alerts, create_alert, cancel_alert, h]

/-- Witness for C7 at the malformed identifier "zzz". -/
theorem malformed_id_rejected_before_store_witness :
    list_contacts wStore "zzz" = (.error .invalidId, []) ∧
    list_alerts wStore "zzz" = (.error .invalidId, []) ∧
    create_alert wStore wAid2 { user_id := "zzz", message := none, location := none }
      = (.error .invalidId, wStore, []) ∧
    cancel_alert wStore { alert_id := "zzz", pin := none } = (.error .invalidId, wStore, []) ∧
    HErr.statusCode .invalidId = 400 :=
  malformed_id_rejected_before_store wStore "zzz" wAid2 none none none (by decide)

/-- C5: an alert-creation request that omits the message field, targeting
a user whose stored document has no default_message value, persists an
alert whose message is the fixed fallback string. -/
theorem create_alert_fallback_message
    (st : Store) (newId : String) (p : CreateAlertRequest) (user : UserDoc)
    (hval : isValidObjectId p.user_id = true)
    (hmsg : p.message = none)
    (huser : (st.users.filter fun u => u.id == p.user_id).head? = some user)
    (hdm : user.default_message = none) :
    (create_alert st newId p).2.1.alerts
      = st.alerts ++ [{ id := newId, user_id := p.user_id, message := fallbackMessage,
                        location := p.location, status := "active", share_url := none }] := by
  simp [create_alert, hval, huser, hmsg, hdm, pyOrStr]

/-- Witness for C5: creating an alert with no message for the user stored
without a default_message yields the fallback message. -/
theorem create_alert_fallback_message_witness :
    (create_alert wStoreNoDm wAid { user_id := wUid, message := none, location := none }).2.1.alerts
      = wStoreNoDm.alerts
        ++ [{ id := wAid, user_id := wUid, message := fallbackMessage,
              location := none, status := "active", share_url := none }] :=
  create_alert_fallback_message wStoreNoDm wAid
    { user_id := wUid, message := none, location := none } wUserNoDm
    (by decide) rfl rfl rfl

/-- C10: cancelling an existing alert whose stored user_id (a well-formed
identifier, as every alert the service creates has) matches no user
document skips the PIN check entirely and succeeds, whatever pin value
the request carries or omits. -/
theorem cancel_missing_owner_succeeds
    (st : Store) (p : CancelAlertRequest) (alert : AlertDoc)
    (hval : isValidObjectId p.alert_id = true)
    (halert : (st.alerts.filter fun a => a.id == p.alert_id).head? = some alert)
    (huval : isValidObjectId alert.user_id = true)
    (hnouser : (st.users.filter fun u => u.id == alert.user_id) = []) :
    (cancel_alert st p).1 = .ok { alert_id := p.alert_id, status := "canceled" } := by
  simp [cancel_alert, hval, halert, huval, hnouser, pinCheckFails]

/-- Witness for C10: the orphan alert cancels successfully both with an
arbitrary pin and with none. -/
theorem cancel_missing_owner_succeeds_witness :
    (cancel_alert wStoreOrphan { alert_id := wAid, pin := some "9999" }).1
      = .ok { alert_id := wAid, status := "canceled" } ∧
    (cancel_alert wStoreOrphan { alert_id := wAid, pin := none }).1
      = .ok { alert_id := wAid, status := "canceled" } :=
  ⟨cancel_missing_owner_succeeds wStoreOrphan { alert_id := wAid, pin := some "9999" }
      wAlert (by decide) rfl (by decide) rfl,
   cancel_missing_owner_succeeds wStoreOrphan { alert_id := wAid, pin := none }
      wAlert (by decide) rfl (by decide) rfl⟩

/-- Reduction of cancel_alert once the alert identifier is well-formed,
the alert is found, and its stored user_id is well-formed: the outcome is
decided by the PIN check on the first matching user document. -/
lemma cancel_alert_reduced
    (st : Store) (p : CancelAlertRequest) (alert : AlertDoc)
    (hval : isValidObjectId p.alert_id = true)
    (halert : (st.alerts.filter fun a => a.id == p.alert_id).head? = some alert)
    (huval : isValidObjectId alert.user_id = true) :
    cancel_alert st p =
      (if pinCheckFails ((st.users.filter fun u => u.id == alert.user_id).head?) p.pin then
        (.error .forbidden, st, [.read "alert", .read "user"])
      else
        (.ok { alert_id := p.alert_id, status := "canceled" },
         { st with alerts := setCanceledFirst st.alerts p.alert_id },
         [.read "alert", .read "user", .write "alert"])) := by
  simp [cancel_alert, hval, halert, huval]

/-- When the owning user's stored pin is a non-empty string, the PIN check
fails exactly on requests whose pin is not literally that string. -/
lemma pinCheckFails_eq_of_pin
    (user : UserDoc) (upin : String) (hup : user.pin = some upin)
    (hne : upin ≠ "") (pin : Option String) :
    pinCheckFails (some user) pin = !(pin == some upin) := by
  cases pin with
  | none => simp [pinCheckFails, hup, hne]
  | some ppin =>
    by_cases h : ppin = upin
    · subst h
      simp [pinCheckFails, hup, hne]
    · simp [pinCheckFails, hup, hne, h, bne]

/-- When the owning user has no pin key or an empty pin, the PIN check
never fails. -/
lemma pinCheckFails_of_no_pin
    (user : UserDoc) (h : strTruthy user.pin = false) (pin : Option String) :
    pinCheckFails (some user) pin = false := by
  cases hup : user.pin with
  | none => simp [pinCheckFails, hup]
  | some s =>
    have hs : (s == "") = true := by
      rw [hup] at h
      simpa [strTruthy] using h
    simp [pinCheckFails, hup, hs]

/-- C1: for a cancellation request naming an existing alert whose owning
user document exists: when that user has a non-empty stored pin, the
cancellation succeeds if and only if the request carries exactly that pin
string, and any mismatch or omission yields the Forbidden error (403);
when the user has no non-empty pin, cancellation succeeds no matter what
pin field the request carries. -/
theorem cancel_pin_authorization
    (st : Store) (p : CancelAlertRequest) (alert : AlertDoc) (user : UserDoc)
    (hval : isValidObjectId p.alert_id = true)
    (halert : (st.alerts.filter fun a => a.id == p.alert_id).head? = some alert)
    (huval : isValidObjectId alert.user_id = true)
    (huser : (st.users.filter fun u => u.id == alert.user_id).head? = some user) :
    (∀ upin : String, user.pin = some upin → upin ≠ "" →
      (((cancel_alert st p).1 = .ok { alert_id := p.alert_id, status := "canceled" })
          ↔ p.pin = some upin)
      ∧ (p.pin ≠ some upin →
          (cancel_alert st p).1 = .error .forbidden ∧ HErr.statusCode .forbidden = 403))
    ∧ (strTruthy user.pin = false →
        (cancel_alert st p).1 = .ok { alert_id := p.alert_id, status := "canceled" }) := by
  have hred := cancel_alert_reduced st p alert hval halert huval
  rw [huser] at hred
  constructor
  · intro upin hup hne
    rw [pinCheckFails_eq_of_pin user upin hup hne p.pin] at hred
    by_cases hpq : p.pin = some upin
    · simp [hpq] at hred
      simp [hred, hpq]
    · have : (p.pin == some upin) = false := by
        simp [hpq]
      rw [this] at hred
      simp at hred
      simp [hred, hpq, HErr.statusCode]
  · intro hnopin
    rw [pinCheckFails_of_no_pin user hnopin p.pin] at hred
    simp at hred
    simp [hred]

/-- Witness for C1 on concrete stores: with stored pin "1234", the exact
pin succeeds, a wrong pin and an omitted pin are Forbidden; with no pin
configured, cancellation succeeds with no pin supplied. -/
theorem cancel_pin_authorization_witness :
    (cancel_alert wStore { alert_id := wAid, pin := some "1234" }).1
      = .ok { alert_id := wAid, status := "canceled" } ∧
    (cancel_alert wStore { alert_id := wAid, pin := some "0000" }).1 = .error .forbidden ∧
    (cancel_alert wStore { alert_id := wAid, pin := none }).1 = .error .forbidden ∧
    (cancel_alert wStoreNoPin { alert_id := wAid, pin := none }).1
      = .ok { alert_id := wAid, status := "canceled" } := by
  have h1 := cancel_pin_authorization wStore { alert_id := wAid, pin := some "1234" }
    wAlert wUserPin (by decide) rfl (by decide) rfl
  have h2 := cancel_pin_authorization wStore { alert_id := wAid, pin := some "0000" }
    wAlert wUserPin (by decide) rfl (by decide) rfl
  have h3 := cancel_pin_authorization wStore { alert_id := wAid, pin := none }
    wAlert wUserPin (by decide) rfl (by decide) rfl
  have h4 := cancel_pin_authorization wStoreNoPin { alert_id := wAid, pin := none }
    wAlert wUserNoPin (by decide) rfl (by decide) rfl
  exact ⟨(h1.1 "1234" rfl (by decide)).1.mpr rfl,
         ((h2.1 "1234" rfl (by decide)).2 (by decide)).1,
         ((h3.1 "1234" rfl (by decide)).2 (by decide)).1,
         h4.2 (by decide)⟩

/-- C2: whenever cancellation is rejected with the Forbidden (403)
authorization error, the store is left exactly as it was — in particular
the targeted alert's status — and none of the operations the handler
issued is a write. -/
theorem cancel_forbidden_no_write
    (st : Store) (p : CancelAlertRequest)
    (h : (cancel_alert st p).1 = .error .forbidden) :
    (cancel_alert st p).2.1 = st ∧
    ((cancel_alert st p).2.2.all fun op => !op.isWrite) = true := by
  by_cases h1 : isValidObjectId p.alert_id = true
  · cases hh : st.alerts.find? (fun a => a.id == p.alert_id) with
    | none => simp [cancel_alert, h1, hh, StoreOp.isWrite]
    | some alert =>
      by_cases h2 : isValidObjectId alert.user_id = true
      · by_cases h3 :
            pinCheckFails (st.users.find? fun u => u.id == alert.user_id) p.pin = true
        · simp [cancel_alert, h1, hh, h2, h3, StoreOp.isWrite]
        · simp [cancel_alert, h1, hh, h2, h3] at h
      · simp [cancel_alert, h1, hh, h2, StoreOp.isWrite]
  · simp [cancel_alert, h1, StoreOp.isWrite]

/-- Witness for C2: the wrong-pin cancellation is Forbidden and leaves the
concrete store untouched, with no write issued. -/
theorem cancel_forbidden_no_write_witness :
    (cancel_alert wStore { alert_id := wAid, pin := some "0000" }).2.1 = wStore ∧
    ((cancel_alert wStore { alert_id := wAid, pin := some "0000" }).2.2.all
        fun op => !op.isWrite) = true :=
  cancel_forbidden_no_write wStore { alert_id := wAid, pin := some "0000" } rfl

/-- Splitting lemma for the update_one model: when some document matches,
the list splits at the first match, and setCanceledFirst rewrites exactly
that document's status. -/
lemma setCanceledFirst_split (aid : String) (l : List AlertDoc) (alert : AlertDoc)
    (h : (l.find? fun a => a.id == aid) = some alert) :
    ∃ pre post, l = pre ++ alert :: post ∧
      (∀ b ∈ pre, (b.id == aid) = false) ∧
      (alert.id == aid) = true ∧
      setCanceledFirst l aid = pre ++ { alert with status := "canceled" } :: post := by
  induction l with
  | nil => simp at h
  | cons x xs ih =>
    by_cases hx : (x.id == aid) = true
    · have hfx : ((x :: xs).find? fun a => a.id == aid) = some x := by
        simp [List.find?_cons, hx]
      rw [hfx] at h
      obtain rfl : x = alert := by injection h
      exact ⟨[], xs, rfl, by simp, hx, by simp [setCanceledFirst, hx]⟩
    · have hfx : ((x :: xs).find? fun a => a.id == aid) = xs.find? fun a => a.id == aid := by
        simp [List.find?_cons, hx]
      rw [hfx] at h
      obtain ⟨pre, post, hl, hpre, ha, hs⟩ := ih h
      refine ⟨x :: pre, post, by simp [hl], ?_, ha, ?_⟩
      · intro b hb
        rcases List.mem_cons.mp hb with rfl | hb2
        · simpa using hx
        · exact hpre b hb2
      · simp [setCanceledFirst, hx, hs]

/-- C6: every successful cancellation changes the store only at the first
alert document matching the request's alert_id, rewriting exactly its
status field to "canceled" (the record update keeps id, user_id, message,
location and share_url); user and contact collections are untouched. No
hypothesis constrains the alert's prior status, so the overwrite applies
from any status, including "canceled" and "resolved". -/
theorem cancel_success_frame
    (st : Store) (p : CancelAlertRequest) (resp : AlertStatusResponse)
    (h : (cancel_alert st p).1 = .ok resp) :
    (cancel_alert st p).2.1.users = st.users ∧
    (cancel_alert st p).2.1.contacts = st.contacts ∧
    ∃ pre alert post,
      st.alerts = pre ++ alert :: post ∧
      (∀ b ∈ pre, (b.id == p.alert_id) = false) ∧
      (alert.id == p.alert_id) = true ∧
      (cancel_alert st p).2.1.alerts
        = pre ++ { alert with status := "canceled" } :: post := by
  by_cases h1 : isValidObjectId p.alert_id = true
  · cases hh : st.alerts.find? (fun a => a.id == p.alert_id) with
    | none => simp [cancel_alert, h1, hh] at h
    | some alert =>
      by_cases h2 : isValidObjectId alert.user_id = true
      · by_cases h3 :
            pinCheckFails (st.users.find? fun u => u.id == alert.user_id) p.pin = true
        · simp [cancel_alert, h1, hh, h2, h3] at h
        · obtain ⟨pre, post, hl, hpre, ha, hs⟩ :=
            setCanceledFirst_split p.alert_id st.alerts alert hh
          exact ⟨by simp [cancel_alert, h1, hh, h2, h3],
                 by simp [cancel_alert, h1, hh, h2, h3],
                 pre, alert, post, hl, hpre, ha,
                 by simp [cancel_alert, h1, hh, h2, h3, hs]⟩
      · simp [cancel_alert, h1, hh, h2] at h
  · simp [cancel_alert, h1] at h

/-- Witness for C6: cancelling the alert stored in status "resolved"
succeeds, leaves users and contacts unchanged, and yields exactly that
alert with only its status rewritten to "canceled". -/
theorem cancel_success_frame_witness :
    (cancel_alert wStoreResolved { alert_id := wAid, pin := none }).2.1.users
      = wStoreResolved.users ∧
    (cancel_alert wStoreResolved { alert_id := wAid, pin := none }).2.1.contacts
      = wStoreResolved.contacts ∧
    (cancel_alert wStoreResolved { alert_id := wAid, pin := none }).2.1.alerts
      = [{ wAlertResolved with status := "canceled" }] := by
  have h6 := cancel_success_frame wStoreResolved { alert_id := wAid, pin := none }
    { alert_id := wAid, status := "canceled" } rfl
  exact ⟨h6.1, h6.2.1, rfl⟩

/-- C4: for a well-formed user identifier, alert creation fails with
UserNotFound (404) exactly when no user document matches it; when one
does, it returns the new alert identifier with status "active" and
appends exactly one alert document with status "active" and share_url
unset. -/
theorem create_alert_behavior
    (st : Store) (newId : String) (p : CreateAlertRequest)
    (hval : isValidObjectId p.user_id = true) :
    (((create_alert st newId p).1 = .error .userNotFound)
        ↔ (st.users.filter fun u => u.id == p.user_id) = []) ∧
    HErr.statusCode .userNotFound = 404 ∧
    ∀ user, (st.users.filter fun u => u.id == p.user_id).head? = some user →
      (create_alert st newId p).1 = .ok { alert_id := newId, status := "active" } ∧
      ∃ doc : AlertDoc,
        (create_alert st newId p).2.1 = { st with alerts := st.alerts ++ [doc] } ∧
        doc.id = newId ∧ doc.status = "active" ∧ doc.share_url = none ∧
        doc.user_id = p.user_id := by
  refine ⟨?_, rfl, ?_⟩
  · cases hfind : st.users.find? (fun u => u.id == p.user_id) with
    | none =>
      have hnil : (st.users.filter fun u => u.id == p.user_id) = [] :=
        List.filter_eq_nil_iff.mpr (by
          intro u hu
          simpa using List.find?_eq_none.mp hfind u hu)
      simp [create_alert, hval, hfind, hnil]
    | some u =>
      have hmem := List.mem_of_find?_eq_some hfind
      have hpu := List.find?_some hfind
      have hnil : ¬ (st.users.filter fun u => u.id == p.user_id) = [] := by
        intro he
        exact (List.filter_eq_nil_iff.mp he u hmem) hpu
      simp [create_alert, hval, hfind, hnil]
  · intro user hu
    have hu2 : st.users.find? (fun u => u.id == p.user_id) = some user := by
      simpa using hu
    refine ⟨by simp [create_alert, hval, hu2],
            { id := newId, user_id := p.user_id,
              message := pyOrStr p.message (user.default_message.getD fallbackMessage),
              location := p.location, status := "active", share_url := none },
            by simp [create_alert, hval, hu2], rfl, rfl, rfl, rfl⟩

/-- Witness for C4: creating an alert for the stored user succeeds with
status "active"; creating one against the empty store is UserNotFound,
surfaced as 404. -/
theorem create_alert_behavior_witness :
    (create_alert wStore wAid2 { user_id := wUid, message := some "help", location := none }).1
      = .ok { alert_id := wAid2, status := "active" } ∧
    (create_alert wStoreEmpty wAid2 { user_id := wUid, message := none, location := none }).1
      = .error .userNotFound ∧
    HErr.statusCode .userNotFound = 404 := by
  have hA := create_alert_behavior wStore wAid2
    { user_id := wUid, message := some "help", location := none } (by decide)
  have hB := create_alert_behavior wStoreEmpty wAid2
    { user_id := wUid, message := none, location := none } (by decide)
  exact ⟨(hA.2.2 wUserPin rfl).1, hB.1.mpr rfl, hA.2.1⟩

/-- Every document persisted by contactDocsOf carries the injected
user_id. -/
lemma contactDocsOf_userid (uid : String) (pairs : List (Contact × String)) :
    ∀ d ∈ contactDocsOf uid pairs, (d.user_id == uid) = true := by
  intro d hd
  unfold contactDocsOf at hd
  obtain ⟨pr, hpr, rfl⟩ := List.mem_map.mp hd
  simp

/-- The contact fields of the persisted documents are the submitted
contacts' fields, in order. -/
lemma contactDocsOf_fields (uid : String) (pairs : List (Contact × String)) :
    (contactDocsOf uid pairs).map (fun d => (d.name, d.phone, d.email))
      = pairs.map (fun pr => (pr.1.name, pr.1.phone, pr.1.email)) := by
  induction pairs with
  | nil => rfl
  | cons x xs ih => simp [contactDocsOf]

/-- C3: registering a valid payload whose contacts list is cs, with a
fresh well-formed user identifier, returns that identifier, and listing
contacts for it returns exactly the documents persisted for cs — whose
contact fields (name, phone, email), in submission order, equal those of
cs. List equality implies the order-independent set equality the claim
states; the comparison is on the contact's own fields since user_id is
injected and the document identifier is store-generated. -/
theorem register_then_list_contacts
    (st : Store) (p : RegisterUserRequest) (uid : String) (cids : List String)
    (cs : List Contact)
    (hc : p.contacts = some cs)
    (hlen : cids.length = cs.length)
    (hval : isValidObjectId uid = true)
    (hfresh : ∀ c ∈ st.contacts, ¬ c.user_id = uid) :
    (register_user st uid cids p).1.user_id = uid ∧
    (list_contacts (register_user st uid cids p).2.1 uid).1
      = .ok (contactDocsOf uid (cs.zip cids)) ∧
    (contactDocsOf uid (cs.zip cids)).map (fun d => (d.name, d.phone, d.email))
      = cs.map (fun c => (c.name, c.phone, c.email)) := by
  have hold : st.contacts.filter (fun c => c.user_id == uid) = [] :=
    List.filter_eq_nil_iff.mpr (by
      intro c hcm
      simpa using hfresh c hcm)
  have hnew : (contactDocsOf uid (cs.zip cids)).filter (fun c => c.user_id == uid)
      = contactDocsOf uid (cs.zip cids) :=
    List.filter_eq_self.mpr (contactDocsOf_userid uid (cs.zip cids))
  have hmap : (contactDocsOf uid (cs.zip cids)).map (fun d => (d.name, d.phone, d.email))
      = cs.map (fun c => (c.name, c.phone, c.email)) := by
    have h1 : (cs.zip cids).map Prod.fst = cs :=
      List.map_fst_zip cs cids (le_of_eq hlen.symm)
    calc (contactDocsOf uid (cs.zip cids)).map (fun d => (d.name, d.phone, d.email))
        = (cs.zip cids).map (fun pr => (pr.1.name, pr.1.phone, pr.1.email)) :=
          contactDocsOf_fields uid (cs.zip cids)
      _ = ((cs.zip cids).map Prod.fst).map (fun c => (c.name, c.phone, c.email)) := by
          rw [List.map_map]
          rfl
      _ = cs.map (fun c => (c.name, c.phone, c.email)) := by rw [h1]
  refine ⟨rfl, ?_, hmap⟩
  simp [list_contacts, hval, register_user, hc, List.filter_append, hold, hnew]

/-- Witness for C3 on the empty store with two submitted contacts. -/
theorem register_then_list_contacts_witness :
    (register_user wStoreEmpty wUid [wCid1, wCid2] wRegisterReq).1.user_id = wUid ∧
    (list_contacts (register_user wStoreEmpty wUid [wCid1, wCid2] wRegisterReq).2.1 wUid).1
      = .ok (contactDocsOf wUid ([wContact1, wContact2].zip [wCid1, wCid2])) ∧
    (contactDocsOf wUid ([wContact1, wContact2].zip [wCid1, wCid2])).map
        (fun d => (d.name, d.phone, d.email))
      = [wContact1, wContact2].map (fun c => (c.name, c.phone, c.email)) :=
  register_then_list_contacts wStoreEmpty wRegisterReq wUid [wCid1, wCid2]
    [wContact1, wContact2] rfl rfl (by decide)
    (by intro c hcm; simp [wStoreEmpty] at hcm)

/-- If some submitted contact lacks its user_id field, validating the
contacts list fails. -/
lemma validateContacts_error_of_missing
    (rcs : List RawContact) (rc : RawContact)
    (hm : rc ∈ rcs) (hn : rc.user_id = none) :
    ∃ e, validateContacts rcs = Except.error e := by
  induction rcs with
  | nil => cases hm
  | cons x xs ih =>
    rcases List.mem_cons.mp hm with rfl | hm2
    · exact ⟨.missingField, by simp [validateContacts, validateContact, hn]⟩
    · cases hx : validateContact x with
      | error e => exact ⟨e, by simp [validateContacts, hx]⟩
      | ok c =>
        obtain ⟨e, he⟩ := ih hm2
        exact ⟨e, by simp [validateContacts, hx, he]⟩

/-- C8 counterexample: the claim says registration accepts contact
entries lacking a user_id field, but the Contact schema declares user_id
required, so this concrete payload — one contact with no user_id — is
rejected by validation and never persisted. -/
theorem contact_without_userid_rejected :
    validateRegisterRequest c8Payload = .error .missingField := rfl

/-- The persisted contact documents, viewed through (user_id, name,
phone, email), are exactly one per submitted pair: the submitted
contact's fields with the injected user_id in place of the submitted
one. -/
lemma contactDocsOf_map_full (uid : String) (pairs : List (Contact × String)) :
    (contactDocsOf uid pairs).map (fun d => (d.user_id, d.name, d.phone, d.email))
      = pairs.map (fun pr => (uid, pr.1.name, pr.1.phone, pr.1.email)) := by
  induction pairs with
  | nil => rfl
  | cons x xs ih => simp [contactDocsOf]

/-- C8 amended: the Contact schema makes user_id required, so a register
payload containing a contact entry without a user_id field is rejected by
validation; for accepted payloads with contacts list cs (one generated
identifier per insert), registration appends exactly one contact document
per submitted contact, carrying the newly created user's identifier as
its user_id — overriding whatever user_id value was submitted — and the
submitted contact's own name, phone and email, in order. -/
theorem register_contact_userid_required_and_injected :
    (∀ (r : RawRegisterRequest) (rcs : List RawContact), r.contacts = some rcs →
      ∀ rc ∈ rcs, rc.user_id = none →
        ∃ e, validateRegisterRequest r = .error e) ∧
    (∀ (st : Store) (uid : String) (cids : List String) (p : RegisterUserRequest)
        (cs : List Contact), p.contacts = some cs → cids.length = cs.length →
      ∃ newDocs,
        (register_user st uid cids p).2.1.contacts = st.contacts ++ newDocs ∧
        newDocs.map (fun d => (d.user_id, d.name, d.phone, d.email))
          = cs.map (fun c => (uid, c.name, c.phone, c.email))) := by
  constructor
  · intro r rcs hrc rc hm hn
    cases hname : r.name with
    | none => exact ⟨.missingField, by simp [validateRegisterRequest, hname]⟩
    | some nm =>
      cases hphone : r.phone with
      | none => exact ⟨.missingField, by simp [validateRegisterRequest, hname, hphone]⟩
      | some ph =>
        by_cases hem : emailOk r.email = true
        · obtain ⟨e, he⟩ := validateContacts_error_of_missing rcs rc hm hn
          exact ⟨e, by simp [validateRegisterRequest, hname, hphone, hem, hrc, he]⟩
        · exact ⟨.badEmail, by simp [validateRegisterRequest, hname, hphone, hem]⟩
  · intro st uid cids p cs hc hlen
    refine ⟨contactDocsOf uid (cs.zip cids), by simp [register_user, hc], ?_⟩
    calc (contactDocsOf uid (cs.zip cids)).map (fun d => (d.user_id, d.name, d.phone, d.email))
        = (cs.zip cids).map (fun pr => (uid, pr.1.name, pr.1.phone, pr.1.email)) :=
          contactDocsOf_map_full uid (cs.zip cids)
      _ = ((cs.zip cids).map Prod.fst).map (fun c => (uid, c.name, c.phone, c.email)) := by
          rw [List.map_map]
          rfl
      _ = cs.map (fun c => (uid, c.name, c.phone, c.email)) := by
          rw [List.map_fst_zip cs cids (le_of_eq hlen.symm)]

/-- Witness for the amended C8: the concrete payload whose contact lacks
user_id is rejected, and a concrete registration of two contacts carrying
foreign user_id values persists exactly two documents whose user_id is
the new identifier and whose other fields are the submitted ones. -/
theorem register_contact_userid_witness :
    (∃ e, validateRegisterRequest c8Payload = .error e) ∧
    ∃ newDocs,
      (register_user wStoreEmpty wUid [wCid1, wCid2] wRegisterReq).2.1.contacts
        = wStoreEmpty.contacts ++ newDocs ∧
      newDocs.map (fun d => (d.user_id, d.name, d.phone, d.email))
        = [wContact1, wContact2].map (fun c => (wUid, c.name, c.phone, c.email)) := by
  have h8 := register_contact_userid_required_and_injected
  exact ⟨h8.1 c8Payload
           [{ user_id := none, name := some "B", phone := none, email := none }] rfl
           { user_id := none, name := some "B", phone := none, email := none }
           (by simp) rfl,
         h8.2 wStoreEmpty wUid [wCid1, wCid2] wRegisterReq
           [wContact1, wContact2] rfl rfl⟩

/-- C9 counterexample: the claim says schema validation only accepts pin
values that are 4-6 digit strings, but the schema declares pin as a plain
optional string with no constraint: this concrete payload with pin "abc"
— neither 4-6 characters of length 4 nor digits — is accepted. -/
theorem pin_format_not_enforced :
    validateRegisterRequest c9Payload = .ok c9Accepted ∧
    c9Accepted.pin = some "abc" ∧
    pinFormat "abc" = false :=
  ⟨rfl, rfl, by decide⟩

/-- C9 amended: the registration schema places no format constraint on
pin: any present string value, of any length and content, passes
validation and is carried through unchanged (the 4-6 digit format exists
only in the field's description text). -/
theorem pin_passthrough_unvalidated
    (r : RawRegisterRequest) (nm ph : String)
    (hn : r.name = some nm) (hp : r.phone = some ph)
    (he : emailOk r.email = true) (hc : r.contacts = none) :
    validateRegisterRequest r =
      .ok { name := nm, phone := ph, email := r.email,
            default_message := r.default_message.getD fallbackMessage,
            pin := r.pin, contacts := none } := by
  simp [validateRegisterRequest, hn, hp, he, hc]

/-- Witness for the amended C9 at the concrete payload with pin "abc". -/
theorem pin_passthrough_unvalidated_witness :
    validateRegisterRequest c9Payload =
      .ok { name := "A", phone := "555", email := none,
            default_message := fallbackMessage, pin := some "abc", contacts := none } :=
  pin_passthrough_unvalidated c9Payload "A" "555" rfl rfl rfl rfl

end SafetyAlert
